import Mathlib

/-!
Shallow embedding of `src/lsmi-ps3.c` (Linux Pseudo MIDI Input, PS3
controller variant): the mapping table, the input classifier (the
`switch ( iev.code )` in `main`), the event synthesizer (the
`switch ( ev.type = map[i].ev_type )` in `main`), the override parser
`parse_map`, and the dispatch loop.

Conventions of the embedding:
* C `unsigned int` fields that stay small are `Nat`; the event value
  (`__s32 iev.value`) is `Int`; arithmetic is exact (the C program never
  lets these quantities near the 32-bit boundary on real device input).
* `exit(1)` paths of `parse_map` become `Option.none`.
* `sscanf( s, "%1[cn]:%u:%u", ... )` is modelled as: one character from
  the set \x7bc, n\x7d, a literal colon, a nonempty digit run, a literal
  colon, a nonempty digit run; trailing characters are ignored, exactly
  as `sscanf` ignores them once three conversions have succeeded.
-/

namespace Lsmi

/-- Linux input event type `EV_KEY` (digital key domain). -/
def EV_KEY : Nat := 1

/-- Linux input event type `EV_ABS` (analog axis domain). -/
def EV_ABS : Nat := 3

/-- The `DOWN` macro of the source: raw value of a pressed key. -/
def DOWN : Int := 1

/-- The ALSA sequencer event kinds the program stores in `map[i].ev_type`:
`SND_SEQ_EVENT_NOTEON`, `SND_SEQ_EVENT_PITCHBEND`, `SND_SEQ_EVENT_PGMCHANGE`
and (only reachable through `parse_map`) `SND_SEQ_EVENT_CONTROLLER`. -/
inductive EvType where
  | noteon
  | pitchbend
  | pgmchange
  | controller
  deriving DecidableEq, Repr

/-- `struct map_s`: one slot of the mapping table. Field order follows the
C struct: event type, note/controller number, channel. -/
structure MapS where
  ev_type : EvType
  number : Nat
  channel : Nat
  deriving DecidableEq, Repr

/-- `struct map_s map[22]`: the compiled-in default table, entry by entry
from the initializer in the source (face, dpad, triggers, stick clicks,
stick axes, trigger pressure, start/select). -/
def map : List MapS :=
  [ ⟨EvType.noteon, 48, 0⟩,
    ⟨EvType.noteon, 52, 0⟩,
    ⟨EvType.noteon, 55, 0⟩,
    ⟨EvType.noteon, 60, 0⟩,
    ⟨EvType.noteon, 64, 0⟩,
    ⟨EvType.noteon, 67, 0⟩,
    ⟨EvType.noteon, 72, 0⟩,
    ⟨EvType.noteon, 76, 0⟩,
    ⟨EvType.noteon, 79, 0⟩,
    ⟨EvType.noteon, 84, 0⟩,
    ⟨EvType.noteon, 50, 0⟩,
    ⟨EvType.noteon, 55, 0⟩,
    ⟨EvType.noteon, 59, 0⟩,
    ⟨EvType.noteon, 62, 0⟩,
    ⟨EvType.pitchbend, 0, 0⟩,
    ⟨EvType.pitchbend, 1, 0⟩,
    ⟨EvType.pitchbend, 2, 0⟩,
    ⟨EvType.pitchbend, 3, 0⟩,
    ⟨EvType.noteon, 77, 0⟩,
    ⟨EvType.noteon, 81, 0⟩,
    ⟨EvType.pgmchange, 81, 0⟩,
    ⟨EvType.pgmchange, 81, 0⟩ ]

/-- `struct input_event` restricted to the fields the program reads:
`type` (`__u16`), `code` (`__u16`), `value` (`__s32`). -/
structure InputEvent where
  type : Nat
  code : Nat
  value : Int
  deriving DecidableEq, Repr

/-- The outgoing ALSA events the program builds: `snd_seq_ev_set_noteon`,
`snd_seq_ev_set_pitchbend`, `snd_seq_ev_set_pgmchange` (a controller
variant exists in the API but no live code path builds one). -/
inductive OutEvent where
  | noteon (channel number velocity : Nat)
  | pitchbend (channel : Nat) (value : Int)
  | pgmchange (channel : Nat) (program : Nat)
  deriving DecidableEq, Repr

/-- The `switch ( iev.code )` of `main`, lines 364-405: physical input
code to slot index. The numeric codes are the `linux/input.h` constants
named in the source (`BTN_NORTH` = 307, `BTN_SOUTH` = 304, `BTN_EAST` =
305, `BTN_WEST` = 308, `BTN_DPAD_UP` = 544, `BTN_DPAD_DOWN` = 545,
`BTN_DPAD_RIGHT` = 547, `BTN_DPAD_LEFT` = 546, `BTN_TR` = 311, `BTN_TL` =
310, `BTN_TR2` = 313, `BTN_TL2` = 312, `BTN_THUMBR` = 318, `BTN_THUMBL` =
317, `ABS_X` = 0, `ABS_Y` = 1, `ABS_RX` = 3, `ABS_RY` = 4, `ABS_Z` = 2,
`ABS_RZ` = 5, `BTN_SELECT` = 314, `BTN_START` = 315); `default:` is
`continue`, i.e. no slot. -/
def classifyCode (c : Nat) : Option Nat :=
  if c = 307 then some 0
  else if c = 304 then some 1
  else if c = 305 then some 2
  else if c = 308 then some 3
  else if c = 544 then some 4
  else if c = 545 then some 5
  else if c = 547 then some 6
  else if c = 546 then some 7
  else if c = 311 then some 8
  else if c = 310 then some 9
  else if c = 313 then some 10
  else if c = 312 then some 11
  else if c = 318 then some 12
  else if c = 317 then some 13
  else if c = 0 then some 14
  else if c = 1 then some 15
  else if c = 3 then some 16
  else if c = 4 then some 17
  else if c = 2 then some 18
  else if c = 5 then some 19
  else if c = 314 then some 20
  else if c = 315 then some 21
  else none

/-- The recognized codes, listed in slot order: `codes.getD i 0` is the
one code that reaches slot `i`. -/
def codes : List Nat :=
  [307, 304, 305, 308, 544, 545, 547, 546, 311, 310, 313, 312,
   318, 317, 0, 1, 3, 4, 2, 5, 314, 315]

/-- The classifier including the domain filter of line 361
(`if ( iev.type != EV_KEY && iev.type != EV_ABS ) continue;`): events of
any other type are discarded before the code switch runs. -/
def classify (t c : Nat) : Option Nat :=
  if t ≠ EV_KEY ∧ t ≠ EV_ABS then none else classifyCode c

/-- The synthesizer: the `switch ( ev.type = map[i].ev_type )` of `main`,
lines 409-440, threaded through the process-wide `pgm` counter. Returns
the event passed to `send_event` (or `none` on a `continue`) and the new
counter.
* pitchbend: `snd_seq_ev_set_pitchbend( &ev, map[i].channel, (iev.value * 64) - 8192 )`.
* noteon: `snd_seq_ev_set_noteon( &ev, map[i].channel, map[i].number, iev.value == DOWN ? 127 : 0 )`.
* pgmchange: on `iev.value == 1`, `pgm = pgm + 1` then
  `snd_seq_ev_set_pgmchange( &ev, map[i].channel, pgm )`; otherwise `continue`.
* controller: the switch has no `SND_SEQ_EVENT_CONTROLLER` case, so it
  falls to `default:`, which prints an internal error and `continue`s. -/
def synthesize (slot : MapS) (value : Int) (pgm : Nat) : Option OutEvent × Nat :=
  match slot.ev_type with
  | EvType.pitchbend => (some (OutEvent.pitchbend slot.channel (value * 64 - 8192)), pgm)
  | EvType.noteon =>
      (some (OutEvent.noteon slot.channel slot.number (if value = DOWN then 127 else 0)), pgm)
  | EvType.pgmchange =>
      if value = 1 then (some (OutEvent.pgmchange slot.channel (pgm + 1)), pgm + 1)
      else (none, pgm)
  | EvType.controller => (none, pgm)

/-- One iteration of the dispatch loop body on an already-read event:
domain filter, code switch, table lookup, synthesis. The classifier only
produces indices below 22, so the out-of-range branch is dead for the
real 22-entry table. -/
def cycle (table : List MapS) (iev : InputEvent) (pgm : Nat) : Option OutEvent × Nat :=
  match classify iev.type iev.code with
  | none => (none, pgm)
  | some i =>
      match table.get? i with
      | some slot => synthesize slot iev.value pgm
      | none => (none, pgm)

/-- The dispatch loop run over a finite prefix of the input stream:
collects the events handed to `send_event`, in order, and the final
`pgm` counter. -/
def run (table : List MapS) (evs : List InputEvent) (pgm : Nat) :
    List OutEvent × Nat :=
  match evs with
  | [] => ([], pgm)
  | e :: rest =>
      match cycle table e pgm with
      | (o, pgm1) =>
          match run table rest pgm1 with
          | (os, pgm2) => (o.toList ++ os, pgm2)

/-- Splits a string into its leading run of decimal digits and the rest,
as `sscanf`'s `%u` conversion consumes input. -/
def takeDigits : List Char → List Char × List Char
  | [] => ([], [])
  | c :: rest =>
      if c.isDigit then
        match takeDigits rest with
        | (d, r) => (c :: d, r)
      else ([], c :: rest)

/-- Value of a digit run, as `%u` stores it. -/
def digitsToNat (ds : List Char) : Nat :=
  ds.foldl (fun a c => a * 10 + (c.toNat - 48)) 0

/-- `sscanf( s, "%1[cn]:%u:%u", t, &channel, &number )` succeeding with
three conversions: one character from \x7bc, n\x7d, a colon, a nonempty
digit run (the channel), a colon, a nonempty digit run (the number).
Anything after the third conversion is ignored, as `sscanf` ignores it. -/
def scanSpec (s : List Char) : Option (Char × Nat × Nat) :=
  match s with
  | [] => none
  | t :: rest =>
      if t = 'c' ∨ t = 'n' then
        match rest with
        | ':' :: rest1 =>
            match takeDigits rest1 with
            | ([], _) => none
            | (d1, rest2) =>
                match rest2 with
                | ':' :: rest3 =>
                    match takeDigits rest3 with
                    | ([], _) => none
                    | (d2, _) => some (t, digitsToNat d1, digitsToNat d2)
                | _ => none
        | _ => none
      else none

/-- `parse_map` (source lines 140-167), as the slot value it installs;
`exit( 1 )` becomes `none`. After the scan: channel must lie in 1..16 and
is decremented; then the source compares `map[i].channel > 127` — the
already-decremented channel, at most 15, so that branch never fires, and
even when entered it only prints, it does not exit — so the stored number
is never range-checked; finally `ev_type` becomes `SND_SEQ_EVENT_CONTROLLER`
for `c` and `SND_SEQ_EVENT_NOTEON` for `n`. The result overwrites every
field of the slot, so the previous slot value does not matter. -/
def parse_map (s : List Char) : Option MapS :=
  match scanSpec s with
  | none => none
  | some (t, ch, num) =>
      if 1 ≤ ch ∧ ch ≤ 16 then
        some ⟨if t = 'c' then EvType.controller else EvType.noteon, num, ch - 1⟩
      else none

/-- The condition of the dead range check at source lines 161-164,
exactly as written there: it tests the channel, not the number. -/
def numberRangeCheck (m : MapS) : Bool :=
  m.channel > 127

/-- State of the dispatch loop across iterations: the `input_event`
buffer `iev` (a stack variable that keeps its last contents when `read`
fails) and the `pgm` counter. -/
structure LoopState where
  buf : InputEvent
  pgm : Nat
  deriving DecidableEq, Repr

/-- `read( fd, &iev, sizeof( iev ) );` at line 359 with its return value
discarded: on a successful read the buffer holds the new event, on a
failed read it keeps its previous contents — nothing inspects the
outcome. -/
def readStep (st : LoopState) (r : Option InputEvent) : InputEvent :=
  match r with
  | some e => e
  | none => st.buf

/-- One full iteration of the `for ( ;; )` loop: the unchecked read,
then the loop body on whatever the buffer holds. -/
def loopCycle (st : LoopState) (r : Option InputEvent) :
    Option OutEvent × LoopState :=
  match readStep st r with
  | b =>
      match cycle map b st.pgm with
      | (o, p) => (o, ⟨b, p⟩)

/-- Spec strings used in the claims, as character lists. -/
def specC164 : List Char := ['c', ':', '1', ':', '6', '4']

def specX11 : List Char := ['x', ':', '1', ':', '1']

def specC064 : List Char := ['c', ':', '0', ':', '6', '4']

def specC1764 : List Char := ['c', ':', '1', '7', ':', '6', '4']

def specC1200 : List Char := ['c', ':', '1', ':', '2', '0', '0']

end Lsmi

namespace Lsmi

theorem synthesize_noteon (slot : MapS) (v : Int) (p : Nat)
    (h : slot.ev_type = EvType.noteon) :
    synthesize slot v p =
      (some (OutEvent.noteon slot.channel slot.number
        (if v = 1 then 127 else 0)), p) := by
  unfold synthesize
  rw [h, DOWN]

theorem synthesize_pitchbend (slot : MapS) (v : Int) (p : Nat)
    (h : slot.ev_type = EvType.pitchbend) :
    synthesize slot v p =
      (some (OutEvent.pitchbend slot.channel (v * 64 - 8192)), p) := by
  unfold synthesize
  rw [h]

theorem synthesize_pgmchange (slot : MapS) (v : Int) (p : Nat)
    (h : slot.ev_type = EvType.pgmchange) :
    synthesize slot v p =
      if v = 1 then (some (OutEvent.pgmchange slot.channel (p + 1)), p + 1)
      else (none, p) := by
  unfold synthesize
  rw [h]

theorem cycle_eq (table : List MapS) (iev : InputEvent) (i : Nat)
    (slot : MapS) (p : Nat)
    (hcl : classify iev.type iev.code = some i)
    (hsl : table.get? i = some slot) :
    cycle table iev p = synthesize slot iev.value p := by
  simp only [cycle, hcl, hsl]



/-- C1: for every input event whose slot maps to PitchBend the synthesized
value is `rawValue * 64 - 8192`, one output event is produced per received
axis sample, the transform is monotonic in the raw value, and with the
default table `(Axis, ABS_X, 0)` yields `PitchBend(ch 0, -8192)` while
`(Axis, ABS_X, 256)` yields `PitchBend(ch 0, 8192)`. -/
theorem pitchbend_per_sample (table : List MapS) (iev : InputEvent) (i : Nat)
    (slot : MapS) (v w : Int) (p : Nat)
    (hcl : classify iev.type iev.code = some i)
    (hsl : table.get? i = some slot)
    (hpb : slot.ev_type = EvType.pitchbend)
    (hvw : v ≤ w) :
    cycle table iev p =
      (some (OutEvent.pitchbend slot.channel (iev.value * 64 - 8192)), p) ∧
    v * 64 - 8192 ≤ w * 64 - 8192 ∧
    (cycle map ⟨EV_ABS, 0, 0⟩ p).1 = some (OutEvent.pitchbend 0 (-8192)) ∧
    (cycle map ⟨EV_ABS, 0, 256⟩ p).1 = some (OutEvent.pitchbend 0 8192) := by
  refine ⟨?_, by linarith, rfl, rfl⟩
  rw [cycle_eq table iev i slot p hcl hsl,
    synthesize_pitchbend slot iev.value p hpb]

/-- Witness for `pitchbend_per_sample` at the default table's ABS_X slot. -/
theorem pitchbend_per_sample_w :
    classify 3 0 = some 14 ∧
    map.get? 14 = some ⟨EvType.pitchbend, 0, 0⟩ ∧
    (0 : Int) ≤ 256 ∧
    (cycle map ⟨3, 0, 5⟩ 0 =
        (some (OutEvent.pitchbend 0 ((5 : Int) * 64 - 8192)), 0) ∧
      (0 : Int) * 64 - 8192 ≤ (256 : Int) * 64 - 8192 ∧
      (cycle map ⟨EV_ABS, 0, 0⟩ 0).1 = some (OutEvent.pitchbend 0 (-8192)) ∧
      (cycle map ⟨EV_ABS, 0, 256⟩ 0).1 = some (OutEvent.pitchbend 0 8192)) :=
  ⟨by decide, by decide, by decide,
    pitchbend_per_sample map ⟨3, 0, 5⟩ 14 ⟨EvType.pitchbend, 0, 0⟩ 0 256 0
      (by decide) (by decide) rfl (by decide)⟩

/-- C2: for every slot mapped to NoteOn the synthesized velocity is 127
when the raw value equals the pressed sentinel 1 and 0 for any other raw
value — always a note-on message, never a distinct note-off — and the
counter state is untouched, so repeating the same input yields the same
output. -/
theorem noteon_velocity (slot : MapS) (v : Int) (p : Nat)
    (hsl : slot.ev_type = EvType.noteon) :
    synthesize slot v p =
      (some (OutEvent.noteon slot.channel slot.number
        (if v = 1 then 127 else 0)), p) ∧
    (v = 1 → (synthesize slot v p).1 =
        some (OutEvent.noteon slot.channel slot.number 127)) ∧
    (v ≠ 1 → (synthesize slot v p).1 =
        some (OutEvent.noteon slot.channel slot.number 0)) ∧
    (synthesize slot v p).2 = p := by
  have e := synthesize_noteon slot v p hsl
  refine ⟨e, fun hv => ?_, fun hv => ?_, by rw [e]⟩
  · rw [e, if_pos hv]
  · rw [e, if_neg hv]

/-- Witness for `noteon_velocity` at the default BTN_SOUTH slot. -/
theorem noteon_velocity_w :
    (MapS.ev_type ⟨EvType.noteon, 52, 0⟩ = EvType.noteon) ∧
    (synthesize ⟨EvType.noteon, 52, 0⟩ 1 0 =
        (some (OutEvent.noteon 0 52 (if (1 : Int) = 1 then 127 else 0)), 0) ∧
      ((1 : Int) = 1 →
        (synthesize ⟨EvType.noteon, 52, 0⟩ 1 0).1 =
          some (OutEvent.noteon 0 52 127)) ∧
      ((1 : Int) ≠ 1 →
        (synthesize ⟨EvType.noteon, 52, 0⟩ 1 0).1 =
          some (OutEvent.noteon 0 52 0)) ∧
      (synthesize ⟨EvType.noteon, 52, 0⟩ 1 0).2 = 0) :=
  ⟨rfl, noteon_velocity ⟨EvType.noteon, 52, 0⟩ 1 0 rfl⟩

/-- C3: for every slot mapped to ProgramChange, a press (raw value 1) with
counter `K` emits exactly one program-change carrying `K + 1` on the
slot's channel and the counter becomes `K + 1`; any other raw value emits
nothing and keeps the counter; a second press right after the first emits
`K + 2` and leaves the counter at `K + 2`. -/
theorem pgmchange_counter (slot : MapS) (K : Nat) (v : Int)
    (hsl : slot.ev_type = EvType.pgmchange) :
    synthesize slot 1 K =
      (some (OutEvent.pgmchange slot.channel (K + 1)), K + 1) ∧
    (v ≠ 1 → synthesize slot v K = (none, K)) ∧
    synthesize slot 1 (synthesize slot 1 K).2 =
      (some (OutEvent.pgmchange slot.channel (K + 2)), K + 2) := by
  have e1 := synthesize_pgmchange slot 1 K hsl
  rw [if_pos rfl] at e1
  have e2 := synthesize_pgmchange slot 1 (K + 1) hsl
  rw [if_pos rfl] at e2
  refine ⟨e1, fun hv => ?_, ?_⟩
  · rw [synthesize_pgmchange slot v K hsl, if_neg hv]
  · rw [e1]
    exact e2

/-- Witness for `pgmchange_counter` at the default BTN_SELECT slot. -/
theorem pgmchange_counter_w :
    (MapS.ev_type ⟨EvType.pgmchange, 81, 0⟩ = EvType.pgmchange) ∧
    (synthesize ⟨EvType.pgmchange, 81, 0⟩ 1 0 =
        (some (OutEvent.pgmchange 0 1), 1) ∧
      ((0 : Int) ≠ 1 → synthesize ⟨EvType.pgmchange, 81, 0⟩ 0 0 = (none, 0)) ∧
      synthesize ⟨EvType.pgmchange, 81, 0⟩ 1
          (synthesize ⟨EvType.pgmchange, 81, 0⟩ 1 0).2 =
        (some (OutEvent.pgmchange 0 2), 2)) :=
  ⟨rfl, pgmchange_counter ⟨EvType.pgmchange, 81, 0⟩ 0 0 rfl⟩


/-- Any code the classifier recognizes is one of the 22 listed codes. -/
theorem classifyCode_mem (c i : Nat) (h : classifyCode c = some i) :
    c ∈ codes := by
  by_cases h1 : c = 307
  · subst h1; decide
  by_cases h2 : c = 304
  · subst h2; decide
  by_cases h3 : c = 305
  · subst h3; decide
  by_cases h4 : c = 308
  · subst h4; decide
  by_cases h5 : c = 544
  · subst h5; decide
  by_cases h6 : c = 545
  · subst h6; decide
  by_cases h7 : c = 547
  · subst h7; decide
  by_cases h8 : c = 546
  · subst h8; decide
  by_cases h9 : c = 311
  · subst h9; decide
  by_cases h10 : c = 310
  · subst h10; decide
  by_cases h11 : c = 313
  · subst h11; decide
  by_cases h12 : c = 312
  · subst h12; decide
  by_cases h13 : c = 318
  · subst h13; decide
  by_cases h14 : c = 317
  · subst h14; decide
  by_cases h15 : c = 0
  · subst h15; decide
  by_cases h16 : c = 1
  · subst h16; decide
  by_cases h17 : c = 3
  · subst h17; decide
  by_cases h18 : c = 4
  · subst h18; decide
  by_cases h19 : c = 2
  · subst h19; decide
  by_cases h20 : c = 5
  · subst h20; decide
  by_cases h21 : c = 314
  · subst h21; decide
  by_cases h22 : c = 315
  · subst h22; decide
  exfalso
  unfold classifyCode at h
  rw [if_neg h1, if_neg h2, if_neg h3, if_neg h4, if_neg h5, if_neg h6, if_neg h7, if_neg h8, if_neg h9, if_neg h10, if_neg h11, if_neg h12, if_neg h13, if_neg h14, if_neg h15, if_neg h16, if_neg h17, if_neg h18, if_neg h19, if_neg h20, if_neg h21, if_neg h22] at h
  exact Option.noConfusion h

/-- Each slot below 22 is reached by the code listed for it. -/
theorem codes_reach : ∀ i, i < 22 → classifyCode (codes.getD i 0) = some i := by
  decide

/-- Over the recognized codes, a slot determines its code. -/
theorem codes_unique :
    ∀ c ∈ codes, ∀ i, i < 22 → classifyCode c = some i → c = codes.getD i 0 := by
  decide

/-- Success shape of the override parser: `parse_map` returns a slot
exactly when the `sscanf` pattern matched and the channel was in 1..16. -/
theorem parse_map_isSome (s : List Char) :
    (parse_map s).isSome ↔
      ∃ t ch num, scanSpec s = some (t, ch, num) ∧ 1 ≤ ch ∧ ch ≤ 16 := by
  unfold parse_map
  cases hs : scanSpec s with
  | none => simp
  | some r =>
      obtain ⟨t, ch, num⟩ := r
      by_cases hch : 1 ≤ ch ∧ ch ≤ 16
      · simp [hch]
        exact ⟨t, ch, ⟨rfl, rfl⟩, hch.1, hch.2⟩
      · simp [hch]
        omega

/-- C4: the override succeeds exactly when the spec string matches
`kind:channel:number` with kind `c` or `n`, numeric fields, and channel
in 1..16; on success the slot becomes Controller for `c` / NoteOn for
`n`, with the channel decremented and the number stored; `"c:1:64"`
yields `⟨Controller, 64, 0⟩`, while `"x:1:1"`, `"c:0:64"` and
`"c:17:64"` are rejected (fatal `exit( 1 )` in the source). -/
theorem parse_map_contract (s : List Char) (t : Char) (ch num : Nat)
    (hscan : scanSpec s = some (t, ch, num))
    (h1 : 1 ≤ ch) (h16 : ch ≤ 16) :
    parse_map s =
      some ⟨if t = 'c' then EvType.controller else EvType.noteon,
        num, ch - 1⟩ ∧
    (∀ s', (parse_map s').isSome ↔
      ∃ t' ch' num', scanSpec s' = some (t', ch', num') ∧
        1 ≤ ch' ∧ ch' ≤ 16) ∧
    parse_map specC164 = some ⟨EvType.controller, 64, 0⟩ ∧
    parse_map specX11 = none ∧
    parse_map specC064 = none ∧
    parse_map specC1764 = none := by
  refine ⟨?_, parse_map_isSome, by decide, by decide, by decide, by decide⟩
  simp only [parse_map, hscan]
  rw [if_pos ⟨h1, h16⟩]

/-- Witness for `parse_map_contract` at the spec string `"c:1:64"`. -/
theorem parse_map_contract_w :
    scanSpec specC164 = some ('c', 1, 64) ∧
    (1 : Nat) ≤ 1 ∧ (1 : Nat) ≤ 16 ∧
    (parse_map specC164 =
        some ⟨if 'c' = 'c' then EvType.controller else EvType.noteon,
          64, 1 - 1⟩ ∧
      (∀ s', (parse_map s').isSome ↔
        ∃ t' ch' num', scanSpec s' = some (t', ch', num') ∧
          1 ≤ ch' ∧ ch' ≤ 16) ∧
      parse_map specC164 = some ⟨EvType.controller, 64, 0⟩ ∧
      parse_map specX11 = none ∧
      parse_map specC064 = none ∧
      parse_map specC1764 = none) :=
  ⟨by decide, by decide, by decide,
    parse_map_contract specC164 'c' 1 64 (by decide) (by decide) (by decide)⟩

/-- C5: contrary to the stated invariant, an override whose number field
exceeds 127 is accepted: `"c:1:200"` installs number 200, because the
range check at source lines 161-164 tests the already-decremented
channel (never above 15) instead of the number, and even its body only
prints without exiting. -/
theorem parse_map_number_unchecked :
    parse_map specC1200 = some ⟨EvType.controller, 200, 0⟩ ∧
    (200 : Nat) > 127 ∧
    numberRangeCheck ⟨EvType.controller, 200, 0⟩ = false := by
  decide

/-- C6: with the unmodified default table the input stream
`[(Key, BTN_SOUTH, 1), (Key, BTN_SOUTH, 0)]` produces exactly
`[NoteOn(ch 0, num 52, vel 127), NoteOn(ch 0, num 52, vel 0)]`. -/
theorem default_noteon_stream :
    run map [⟨EV_KEY, 304, 1⟩, ⟨EV_KEY, 304, 0⟩] 0 =
      ([OutEvent.noteon 0 52 127, OutEvent.noteon 0 52 0], 0) := by
  decide

/-- C7 counterexample: slot 1 is reached by two distinct recognized
(domain, code) pairs — `(EV_KEY, BTN_SOUTH)` and `(EV_ABS, BTN_SOUTH)` —
so no slot is reached by exactly one recognized (domain, code) pair. -/
theorem classify_two_domains_same_slot :
    classify EV_KEY 304 = some 1 ∧
    classify EV_ABS 304 = some 1 ∧
    EV_KEY ≠ EV_ABS := by
  decide

/-- C7 (amended): every one of the 22 default slots is reached by exactly
one recognized code — its documented physical code reaches it, and any
code reaching it is that code — so no two distinct recognized codes
classify to the same slot index. -/
theorem classify_exactly_one_code (i c : Nat) (hi : i < 22)
    (hc : classifyCode c = some i) :
    classifyCode (codes.getD i 0) = some i ∧ c = codes.getD i 0 :=
  ⟨codes_reach i hi, codes_unique c (classifyCode_mem c i hc) i hi hc⟩

/-- Witness for `classify_exactly_one_code` at slot 1 and code 304. -/
theorem classify_exactly_one_code_w :
    1 < 22 ∧ classifyCode 304 = some 1 ∧
    (classifyCode (codes.getD 1 0) = some 1 ∧ 304 = codes.getD 1 0) :=
  ⟨by decide, by decide,
    classify_exactly_one_code 1 304 (by decide) (by decide)⟩

/-- C8 counterexample: the four stick-axis inputs ABS_X, ABS_Y, ABS_RX,
ABS_RY all produce pitch-bend on the one channel 0 — not on 4 distinct
channels. -/
theorem stick_axes_one_channel_cx :
    (cycle map ⟨EV_ABS, 0, 0⟩ 0).1 = some (OutEvent.pitchbend 0 (-8192)) ∧
    (cycle map ⟨EV_ABS, 1, 0⟩ 0).1 = some (OutEvent.pitchbend 0 (-8192)) ∧
    (cycle map ⟨EV_ABS, 3, 0⟩ 0).1 = some (OutEvent.pitchbend 0 (-8192)) ∧
    (cycle map ⟨EV_ABS, 4, 0⟩ 0).1 = some (OutEvent.pitchbend 0 (-8192)) := by
  decide

/-- C8 (amended): with the default table the four stick-axis inputs all
produce pitch-bend on the same channel 0; the values 0..3 that
distinguish their table slots sit in the number field, which pitch-bend
synthesis does not read. -/
theorem stick_axes_pitchbend_channel_zero (v : Int) (p : Nat) :
    cycle map ⟨EV_ABS, 0, v⟩ p =
      (some (OutEvent.pitchbend 0 (v * 64 - 8192)), p) ∧
    cycle map ⟨EV_ABS, 1, v⟩ p =
      (some (OutEvent.pitchbend 0 (v * 64 - 8192)), p) ∧
    cycle map ⟨EV_ABS, 3, v⟩ p =
      (some (OutEvent.pitchbend 0 (v * 64 - 8192)), p) ∧
    cycle map ⟨EV_ABS, 4, v⟩ p =
      (some (OutEvent.pitchbend 0 (v * 64 - 8192)), p) ∧
    map.get? 14 = some ⟨EvType.pitchbend, 0, 0⟩ ∧
    map.get? 15 = some ⟨EvType.pitchbend, 1, 0⟩ ∧
    map.get? 16 = some ⟨EvType.pitchbend, 2, 0⟩ ∧
    map.get? 17 = some ⟨EvType.pitchbend, 3, 0⟩ :=
  ⟨rfl, rfl, rfl, rfl, rfl, rfl, rfl, rfl⟩

/-- C9: the loop's `read` at line 359 has its return value discarded, so
after a failed read the loop body still runs on the stale buffer — here a
buffered BTN_SOUTH press is re-emitted as another NoteOn although no new
event was read — where the claim requires a failed read to stop the loop. -/
theorem failed_read_still_processes :
    loopCycle ⟨⟨EV_KEY, 304, 1⟩, 0⟩ none =
      (some (OutEvent.noteon 0 52 127), ⟨⟨EV_KEY, 304, 1⟩, 0⟩) := by
  decide

/-- C10: the classifier depends only on the event's code, never on which
of the two recognized domains carried it; a Key-domain event with code 0
(ABS_X's code) lands in pitch-bend slot 14 and produces a pitch-bend
message, and an Axis-domain event with BTN_SOUTH's code 304 lands in
NoteOn slot 1 and produces a note-on. -/
theorem classify_ignores_domain (t u c : Nat)
    (ht : t = EV_KEY ∨ t = EV_ABS) (hu : u = EV_KEY ∨ u = EV_ABS) :
    classify t c = classify u c ∧
    classify EV_KEY 0 = some 14 ∧
    (cycle map ⟨EV_KEY, 0, 0⟩ 0).1 = some (OutEvent.pitchbend 0 (-8192)) ∧
    classify EV_ABS 304 = some 1 ∧
    (cycle map ⟨EV_ABS, 304, 1⟩ 0).1 = some (OutEvent.noteon 0 52 127) := by
  refine ⟨?_, by decide, by decide, by decide, by decide⟩
  have h : ∀ x : Nat, x = EV_KEY ∨ x = EV_ABS →
      classify x c = classifyCode c := by
    intro x hx
    rcases hx with rfl | rfl <;> simp [classify, EV_KEY, EV_ABS]
  rw [h t ht, h u hu]

/-- Witness for `classify_ignores_domain` at the two recognized domains. -/
theorem classify_ignores_domain_w :
    ((1 : Nat) = EV_KEY ∨ (1 : Nat) = EV_ABS) ∧
    ((3 : Nat) = EV_KEY ∨ (3 : Nat) = EV_ABS) ∧
    (classify 1 0 = classify 3 0 ∧
      classify EV_KEY 0 = some 14 ∧
      (cycle map ⟨EV_KEY, 0, 0⟩ 0).1 = some (OutEvent.pitchbend 0 (-8192)) ∧
      classify EV_ABS 304 = some 1 ∧
      (cycle map ⟨EV_ABS, 304, 1⟩ 0).1 = some (OutEvent.noteon 0 52 127)) :=
  ⟨Or.inl rfl, Or.inr rfl,
    classify_ignores_domain 1 3 0 (Or.inl rfl) (Or.inr rfl)⟩

end Lsmi
